import Mathlib

/-!
Verification of the analysis-orchestration core of the
AI-Legal-Document-Simplifier repository (`GenAI/ai_utils.py`,
`GenAI/config.py`), embedded shallowly in Lean.

Python dictionaries produced by the code are modelled as association
lists `List (String × JValue)` in literal order; JSON values as the
inductive `JValue`; the external Gemini call
`self.model.generate_content` as a function
`model : String → Except String String` from the rendered prompt to
either the reply text (`Except.ok`) or the text of the raised
exception (`Except.error`).  Machine integers do not occur; Python
ints are `Int`/`Nat`.
-/

/-- A JSON value, as produced by `json.loads`.  Numbers are modelled as
integers: every numeric literal appearing in this development is
integral, and no claim depends on float semantics. -/
inductive JValue where
  | null
  | bool (b : Bool)
  | num (n : Int)
  | str (s : String)
  | arr (elems : List JValue)
  | obj (fields : List (String × JValue))

/-- Lookup in a Python dict modelled as an association list in literal
order.  Later occurrences of a key overwrite earlier ones (Python dict
semantics), hence the last match wins. -/
def dictFind : List (String × JValue) → String → Option JValue
  | [], _ => none
  | (k, v) :: rest, key =>
    match dictFind rest key with
    | some w => some w
    | none => if k = key then some v else none

/-- Python `d.get(key, default)` on a dict. -/
def pyDictGetD (d : List (String × JValue)) (key : String) (dflt : JValue) : JValue :=
  (dictFind d key).getD dflt

/-- The keys of a dict literal, in order. -/
def keysOf (d : List (String × JValue)) : List String :=
  d.map Prod.fst

/-- Whether a JSON value is a sequence (a JSON array). -/
def isSeq : JValue → Bool
  | .arr _ => true
  | _ => false

/-- The opening-brace character, `'\x7b'`. -/
def lbrace : Char := Char.ofNat 123

/-- The closing-brace character, `'\x7d'`. -/
def rbrace : Char := Char.ofNat 125

/-- JSON whitespace (also used for Python `str.strip`). -/
def isWsChar (c : Char) : Bool :=
  (c == ' ') || (c == '\n') || (c == '\t') || (c == '\r')

/-- Drop leading JSON whitespace. -/
def skipWs : List Char → List Char
  | [] => []
  | c :: cs => if isWsChar c then skipWs cs else c :: cs

/-- Parse the body of a JSON string literal (the opening quote already
consumed), returning the decoded characters and the rest of the input.
Escape sequences are the common single-character ones; `\uXXXX` is not
modelled (no input in this development uses it), and an unknown escape
fails, as `json.loads` does. -/
def parseStringBody : List Char → Option (List Char × List Char)
  | [] => none
  | c :: cs =>
    if c = '"' then some ([], cs)
    else if c = '\\' then
      match cs with
      | [] => none
      | e :: cs2 =>
        let esc : Option Char :=
          if e = '"' then some '"'
          else if e = '\\' then some '\\'
          else if e = '/' then some '/'
          else if e = 'n' then some '\n'
          else if e = 't' then some '\t'
          else if e = 'r' then some '\r'
          else none
        match esc with
        | none => none
        | some ch =>
          match parseStringBody cs2 with
          | none => none
          | some (content, rest) => some (ch :: content, rest)
    else
      match parseStringBody cs with
      | none => none
      | some (content, rest) => some (c :: content, rest)

/-- Split a leading run of decimal digits from the input. -/
def spanDigits : List Char → List Char × List Char
  | [] => ([], [])
  | c :: cs =>
    if c.isDigit then
      let (d, r) := spanDigits cs
      (c :: d, r)
    else ([], c :: cs)

/-- Parse a JSON number.  Fractions and exponents are not modelled:
every number in this development is an integer literal. -/
def parseNumber (cs : List Char) : Option (Int × List Char) :=
  let (neg, cs1) : Bool × List Char :=
    match cs with
    | '-' :: r => (true, r)
    | _ => (false, cs)
  match spanDigits cs1 with
  | ([], _) => none
  | (ds, rest) =>
    let n : Int := Int.ofNat (ds.foldl (fun a c => a * 10 + (c.toNat - 48)) 0)
    some (if neg then -n else n, rest)

mutual

/-- Parse one JSON value, fuel-bounded (the fuel only bounds nesting
depth; `jsonParse` supplies more fuel than any input can consume). -/
def parseValue : Nat → List Char → Option (JValue × List Char)
  | 0, _ => none
  | fuel + 1, cs =>
    match skipWs cs with
    | [] => none
    | c :: rest =>
      if c = '"' then
        match parseStringBody rest with
        | some (content, r) => some (.str ⟨content⟩, r)
        | none => none
      else if c = lbrace then
        match skipWs rest with
        | [] => none
        | c2 :: r1 =>
          if c2 = rbrace then some (.obj [], r1)
          else
            match parseMembers fuel (c2 :: r1) with
            | some (fields, r) => some (.obj fields, r)
            | none => none
      else if c = '[' then
        match skipWs rest with
        | [] => none
        | c2 :: r1 =>
          if c2 = ']' then some (.arr [], r1)
          else
            match parseElems fuel (c2 :: r1) with
            | some (elems, r) => some (.arr elems, r)
            | none => none
      else if c = 't' then
        match rest with
        | 'r' :: 'u' :: 'e' :: r => some (.bool true, r)
        | _ => none
      else if c = 'f' then
        match rest with
        | 'a' :: 'l' :: 's' :: 'e' :: r => some (.bool false, r)
        | _ => none
      else if c = 'n' then
        match rest with
        | 'u' :: 'l' :: 'l' :: r => some (.null, r)
        | _ => none
      else if c.isDigit || c = '-' then
        match parseNumber (c :: rest) with
        | some (n, r) => some (.num n, r)
        | none => none
      else none

/-- Parse the members of a JSON object (after the opening brace, known
non-empty), up to and including the closing brace. -/
def parseMembers : Nat → List Char → Option (List (String × JValue) × List Char)
  | 0, _ => none
  | fuel + 1, cs =>
    match skipWs cs with
    | [] => none
    | c :: rest =>
      if c = '"' then
        match parseStringBody rest with
        | none => none
        | some (key, r1) =>
          match skipWs r1 with
          | ':' :: r2 =>
            match parseValue fuel r2 with
            | none => none
            | some (v, r3) =>
              match skipWs r3 with
              | [] => none
              | c2 :: r4 =>
                if c2 = ',' then
                  match parseMembers fuel r4 with
                  | some (fields, r5) => some ((⟨key⟩, v) :: fields, r5)
                  | none => none
                else if c2 = rbrace then some ([(⟨key⟩, v)], r4)
                else none
          | _ => none
      else none

/-- Parse the elements of a JSON array (after the opening bracket,
known non-empty), up to and including the closing bracket. -/
def parseElems : Nat → List Char → Option (List JValue × List Char)
  | 0, _ => none
  | fuel + 1, cs =>
    match parseValue fuel cs with
    | none => none
    | some (v, r1) =>
      match skipWs r1 with
      | [] => none
      | c2 :: r2 =>
        if c2 = ',' then
          match parseElems fuel r2 with
          | some (elems, r3) => some (v :: elems, r3)
          | none => none
        else if c2 = ']' then some ([v], r2)
        else none

end

/-- `json.loads`: parse a complete JSON document; trailing non-space
input is an error. -/
def jsonParse (s : String) : Option JValue :=
  match parseValue (s.length + 1) s.data with
  | some (v, rest) => if skipWs rest = [] then some v else none
  | none => none

/-- The candidate substring selected by
`re.search(r'\x7b.*\x7d', response_text, re.DOTALL)`: the span from
the first opening brace to the last closing brace of the reply, when
the latter lies strictly after the former. -/
def extractCandidate (s : String) : Option String :=
  match s.data.findIdx? (fun c => c = lbrace), s.data.reverse.findIdx? (fun c => c = rbrace) with
  | some p, some rq =>
    if p < s.data.length - 1 - rq
    then some ⟨(s.data.drop p).take (s.data.length - 1 - rq - p + 1)⟩
    else none
  | _, _ => none

/-- `AIProcessor._parse_json_response`: extract the greedy brace-span
candidate and decode it with `json.loads`; on no candidate or a decode
failure return the empty dict.  (A successful decode of a candidate is
necessarily an object, since the candidate starts with an opening
brace.) -/
def _parse_json_response (response_text : String) : List (String × JValue) :=
  match extractCandidate response_text with
  | none => []
  | some cand =>
    match jsonParse cand with
    | some (.obj fields) => fields
    | _ => []

/-- Python string slicing `s[:n]` (a character-prefix cut). -/
def pySlice (s : String) (n : Nat) : String := ⟨s.data.take n⟩

/-- Python `str.strip()`. -/
def pyStrip (s : String) : String :=
  ⟨((s.data.dropWhile isWsChar).reverse.dropWhile isWsChar).reverse⟩

/-- Python `len(v)` on a JSON value: sequences, strings and dicts have
a length; `len` of a number, boolean or `None` raises `TypeError`. -/
def pyLen : JValue → Except String Nat
  | .arr xs => .ok xs.length
  | .str s => .ok s.length
  | .obj fs => .ok fs.length
  | .num _ => .error "TypeError: object of type int has no len"
  | .bool _ => .error "TypeError: object of type bool has no len"
  | .null => .error "TypeError: object of type NoneType has no len"

/-- Python iteration over a JSON value: arrays yield their elements,
strings yield one-character strings, dicts yield their keys; numbers,
booleans and `None` raise `TypeError`. -/
def pyIter : JValue → Except String (List JValue)
  | .arr xs => .ok xs
  | .str s => .ok (s.data.map (fun c => .str c.toString))
  | .obj fs => .ok (fs.map (fun kv => .str kv.1))
  | _ => .error "TypeError: object is not iterable"

/-- Python `r.get(key)` as used in the severity tallies: only dicts
have a `.get` attribute; any other value raises `AttributeError`. -/
def pyDictGet : JValue → String → Except String (Option JValue)
  | .obj fs, key => .ok (dictFind fs key)
  | _, _ => .error "AttributeError: object has no attribute get"

/-- Python `r.get('severity') == sev` for a string literal `sev`: a
missing key yields `None`, and `None` or any non-string value compares
unequal to a string. -/
def eqStrVal (v : Option JValue) (sev : String) : Bool :=
  match v with
  | some (.str t) => t == sev
  | _ => false

/-- The list comprehension
`[r for r in risks if r.get('severity') == sev]` of
`detect_risks_advanced`, with the `AttributeError` it may raise on a
non-dict element. -/
def severityFilter (sev : String) : List JValue → Except String (List JValue)
  | [] => .ok []
  | r :: rs =>
    match pyDictGet r "severity" with
    | .error e => .error e
    | .ok v =>
      match severityFilter sev rs with
      | .error e => .error e
      | .ok rest => .ok (if eqStrVal v sev then r :: rest else rest)

/-- Escape a character for a JSON string literal (quote and backslash;
other characters are emitted verbatim — adequate for the values this
system serializes). -/
def escapeChar (c : Char) : List Char :=
  if c = '"' then ['\\', '"']
  else if c = '\\' then ['\\', '\\']
  else [c]

mutual

/-- `json.dumps` of a JSON value (single-line rendering; the `indent=2`
pretty-printing of the source only inserts whitespace and does not
affect any claim). -/
def jsonDumps : JValue → String
  | .null => "null"
  | .bool true => "true"
  | .bool false => "false"
  | .num n => toString n
  | .str s => "\"" ++ ⟨s.data.flatMap escapeChar⟩ ++ "\""
  | .arr xs => "[" ++ dumpsElems xs ++ "]"
  | .obj fs => lbrace.toString ++ dumpsFields fs ++ rbrace.toString

/-- Comma-separated rendering of array elements. -/
def dumpsElems : List JValue → String
  | [] => ""
  | [x] => jsonDumps x
  | x :: xs => jsonDumps x ++ ", " ++ dumpsElems xs

/-- Comma-separated rendering of object members. -/
def dumpsFields : List (String × JValue) → String
  | [] => ""
  | [(k, v)] => "\"" ++ k ++ "\": " ++ jsonDumps v
  | (k, v) :: rest => "\"" ++ k ++ "\": " ++ jsonDumps v ++ ", " ++ dumpsFields rest

end

/-- Python `str()` of a value interpolated into an f-string. -/
def pyStrOf : JValue → String
  | .num n => toString n
  | .str s => s
  | .bool true => "True"
  | .bool false => "False"
  | .null => "None"
  | .arr xs => "[" ++ dumpsElems xs ++ "]"
  | .obj fs => lbrace.toString ++ dumpsFields fs ++ rbrace.toString

/-- The part of the `summarize_document` instruction f-string before
the embedded document text (whitespace normalized). -/
def summarizePromptPre (language : String) : String :=
  "\nYou are a legal document expert specializing in Indian legal documents. Please analyze this legal document and provide:\n\n"
  ++ "1. A brief summary (2-3 sentences) in " ++ language ++ "\n"
  ++ "2. Key points in simple, plain language (5-7 bullet points) in " ++ language ++ "\n"
  ++ "3. Important dates, deadlines, or timeframes mentioned\n"
  ++ "4. Main parties involved\n\n"
  ++ "If the language is Hindi or any Indian language, please respond in that language using appropriate script (Devanagari for Hindi, etc.).\n"
  ++ "Make the language simple and easy to understand for common people.\n\n"
  ++ "Document text:\n"

/-- The part of the `summarize_document` instruction f-string after
the embedded document text: the output-schema example. -/
def summarizePromptPost : String :=
  "\n\nPlease format your response as JSON:\n"
  ++ "\x7b\n    \"summary\": \"Brief summary here\",\n    \"key_points\": [\"Point 1\", \"Point 2\", \"Point 3\"],\n    \"important_dates\": [\"Date 1\", \"Date 2\"],\n    \"parties\": [\"Party 1\", \"Party 2\"]\n\x7d\n"

/-- The instruction f-string of `summarize_document`: the template
with the 4000-character prefix cut `text[:4000]` embedded. -/
def summarizePrompt (text language : String) : String :=
  summarizePromptPre language ++ pySlice text 4000 ++ summarizePromptPost

/-- The part of the `detect_risks_advanced` instruction f-string
before the embedded document text (whitespace normalized). -/
def riskPromptPre (language : String) : String :=
  "\nYou are an expert legal risk analyst specializing in Indian legal documents. Analyze this legal document thoroughly and identify potential risks using your understanding of legal language and context.\n\n"
  ++ "IMPORTANT: Do not rely on simple keyword matching. Instead, analyze the actual meaning and context of sentences to determine if they pose real risks.\n\n"
  ++ "Look for and analyze:\n"
  ++ "1. Penalty and fee structures - Are they reasonable or excessive?\n"
  ++ "2. Data collection and sharing policies - What data is collected and how is it used?\n"
  ++ "3. Auto-renewal and subscription terms - Are users properly informed?\n"
  ++ "4. Termination and cancellation clauses - Are they fair to users?\n"
  ++ "5. Liability limitations and disclaimers - Are they overly broad?\n"
  ++ "6. Unfair contract terms - Any terms that heavily favor one party?\n"
  ++ "7. Hidden charges or fees - Any costs not clearly disclosed?\n"
  ++ "8. Lock-in periods - Are users trapped in contracts?\n\n"
  ++ "For each genuine risk found (not just keyword matches), provide:\n"
  ++ "- Risk type (be specific)\n"
  ++ "- Clear description in " ++ language ++ " (use appropriate script for Indian languages)\n"
  ++ "- Severity level (Low/Medium/High) based on actual impact\n"
  ++ "- Relevant text excerpt that shows the risk\n\n"
  ++ "Only report risks that are actually problematic, not just because certain words appear.\n\n"
  ++ "Document text:\n"

/-- The part of the `detect_risks_advanced` instruction f-string after
the embedded document text: the output-schema example. -/
def riskPromptPost (language : String) : String :=
  "\n\nFormat as JSON:\n"
  ++ "\x7b\n    \"risks\": [\n        \x7b\n            \"type\": \"Specific Risk Type\",\n            \"description\": \"Clear description in " ++ language ++ "\",\n            \"severity\": \"Low/Medium/High\",\n            \"excerpt\": \"Exact text showing the risk\"\n        \x7d\n    ]\n\x7d\n"

/-- The instruction f-string of `detect_risks_advanced`: the template
with the 4000-character prefix cut `text[:4000]` embedded. -/
def riskPrompt (text language : String) : String :=
  riskPromptPre language ++ pySlice text 4000 ++ riskPromptPost language

/-- The part of the `answer_question` instruction f-string before the
embedded document context (whitespace normalized). -/
def answerPromptPre (question language : String) : String :=
  "\nYou are a legal assistant specializing in Indian legal documents. Answer the following question about the legal document.\n"
  ++ "Base your answer on the document content provided.\n"
  ++ "Respond in " ++ language ++ " in a clear, simple manner.\n"
  ++ "If the language is Hindi or any Indian language, use the appropriate script (Devanagari for Hindi, etc.).\n"
  ++ "Make your answer easy to understand for common people.\n\n"
  ++ "Question: " ++ question ++ "\n\n"
  ++ "Document context:\n"

/-- The part of the `answer_question` instruction f-string after the
embedded document context. -/
def answerPromptPost : String :=
  "\n\nPlease provide a direct, helpful answer based on the document content.\n"
  ++ "If the information is not available in the document, say so clearly.\n"

/-- The instruction f-string of `answer_question`: the template with
the narrower 3000-character prefix cut `document_text[:3000]`
embedded. -/
def answerPrompt (question document_text language : String) : String :=
  answerPromptPre question language ++ pySlice document_text 3000 ++ answerPromptPost

/-- The instruction f-string of `get_safety_recommendation`
(whitespace normalized).  It embeds the aggregate counts and the risk
list of a previously obtained Risk Report dict; the document text is
not embedded. -/
def safetyPrompt (risks : List (String × JValue)) (language : String) : String :=
  "\nYou are a legal advisor providing safety recommendations for document signing. Based on the document analysis and detected risks, provide a clear recommendation.\n\n"
  ++ "Document risks summary:\n"
  ++ "- Total risks: " ++ pyStrOf (pyDictGetD risks "total_risks" (.num 0)) ++ "\n"
  ++ "- High risk: " ++ pyStrOf (pyDictGetD risks "high_risk_count" (.num 0)) ++ "\n"
  ++ "- Medium risk: " ++ pyStrOf (pyDictGetD risks "medium_risk_count" (.num 0)) ++ "\n"
  ++ "- Low risk: " ++ pyStrOf (pyDictGetD risks "low_risk_count" (.num 0)) ++ "\n\n"
  ++ "Detected risks: " ++ jsonDumps (pyDictGetD risks "risks" (.arr [])) ++ "\n\n"
  ++ "Provide a safety recommendation in " ++ language ++ " with:\n"
  ++ "1. Overall safety level (SAFE/WARNING/DANGER)\n"
  ++ "2. Clear recommendation (should they sign or not?)\n"
  ++ "3. Specific reasons based on the risks found\n"
  ++ "4. Any specific clauses to negotiate or modify\n\n"
  ++ "Consider:\n"
  ++ "- High risk count indicates danger\n"
  ++ "- Medium risk count indicates caution needed\n"
  ++ "- Low risk count is generally acceptable\n"
  ++ "- Context and severity of individual risks\n\n"
  ++ "Format as JSON:\n"
  ++ "\x7b\n    \"safety_level\": \"SAFE/WARNING/DANGER\",\n    \"recommendation\": \"Clear recommendation in " ++ language ++ "\",\n    \"reasons\": [\"Reason 1\", \"Reason 2\", \"Reason 3\"],\n    \"suggestions\": [\"Suggestion 1\", \"Suggestion 2\"]\n\x7d\n"

/-- `config.SUPPORTED_LANGUAGES`: the fixed shipped mapping of display
name to language code, in source order. -/
def SUPPORTED_LANGUAGES : List (String × String) :=
  [("English", "en"), ("Hindi", "hi"), ("Bengali", "bn"), ("Telugu", "te"),
   ("Marathi", "mr"), ("Tamil", "ta"), ("Gujarati", "gu"), ("Kannada", "kn"),
   ("Malayalam", "ml"), ("Punjabi", "pa"), ("Odia", "or"), ("Assamese", "as"),
   ("Urdu", "ur"), ("Sanskrit", "sa"), ("Nepali", "ne"), ("Bhojpuri", "bh")]

/-- `AIProcessor.validate_language`: Python `language in
SUPPORTED_LANGUAGES` (a key-membership test). -/
def validate_language (language : String) : Bool :=
  SUPPORTED_LANGUAGES.any (fun kv => kv.1 == language)

/-- `AIProcessor.get_supported_languages`: returns the mapping itself. -/
def get_supported_languages : List (String × String) :=
  SUPPORTED_LANGUAGES

/-- The `try`-block of `summarize_document`: build the prompt, invoke
the model (which may raise), interpret the reply, and shape the
Summary Result with per-field defaults. -/
def summarizeAttempt (text language : String)
    (model : String → Except String String) : Except String (List (String × JValue)) :=
  match model (summarizePrompt text language) with
  | .error e => .error e
  | .ok reply =>
    .ok [("summary", pyDictGetD (_parse_json_response reply) "summary" (.str "Summary not available")),
         ("key_points", pyDictGetD (_parse_json_response reply) "key_points" (.arr [])),
         ("important_dates", pyDictGetD (_parse_json_response reply) "important_dates" (.arr [])),
         ("parties", pyDictGetD (_parse_json_response reply) "parties" (.arr [])),
         ("language", .str language)]

/-- `AIProcessor.summarize_document`: the `try` block with its
`except` handler, which converts any raised exception into the
degraded record embedding the error text in `summary`. -/
def summarize_document (text language : String)
    (model : String → Except String String) : List (String × JValue) :=
  match summarizeAttempt text language model with
  | .ok r => r
  | .error e =>
    [("summary", .str ("Error generating summary: " ++ e)),
     ("key_points", .arr []),
     ("important_dates", .arr []),
     ("parties", .arr []),
     ("language", .str language)]

/-- The `try`-block of `detect_risks_advanced`: build the prompt,
invoke the model, interpret the reply, then build the `risk_summary`
dict whose counts are recomputed from the `risks` value (the `len`
call and the three severity list comprehensions can themselves raise
when that value is not a list of dicts, which the `except` handler
also catches). -/
def detectAttempt (text language : String)
    (model : String → Except String String) : Except String (List (String × JValue)) :=
  match model (riskPrompt text language) with
  | .error e => .error e
  | .ok reply =>
    match pyLen (pyDictGetD (_parse_json_response reply) "risks" (.arr [])) with
    | .error e => .error e
    | .ok n =>
      match pyIter (pyDictGetD (_parse_json_response reply) "risks" (.arr [])) with
      | .error e => .error e
      | .ok items =>
        match severityFilter "High" items with
        | .error e => .error e
        | .ok highs =>
          match severityFilter "Medium" items with
          | .error e => .error e
          | .ok meds =>
            match severityFilter "Low" items with
            | .error e => .error e
            | .ok lows =>
              .ok [("total_risks", .num (Int.ofNat n)),
                   ("high_risk_count", .num (Int.ofNat highs.length)),
                   ("medium_risk_count", .num (Int.ofNat meds.length)),
                   ("low_risk_count", .num (Int.ofNat lows.length)),
                   ("risks", pyDictGetD (_parse_json_response reply) "risks" (.arr [])),
                   ("language", .str language)]

/-- `AIProcessor.detect_risks_advanced`: the `try` block with its
`except` handler, which converts any raised exception into the
degraded record with zero counts, an empty risk list, and the error
text under the dedicated `error` key. -/
def detect_risks_advanced (text language : String)
    (model : String → Except String String) : List (String × JValue) :=
  match detectAttempt text language model with
  | .ok r => r
  | .error e =>
    [("total_risks", .num 0),
     ("high_risk_count", .num 0),
     ("medium_risk_count", .num 0),
     ("low_risk_count", .num 0),
     ("risks", .arr []),
     ("language", .str language),
     ("error", .str e)]

/-- The message of the `AttributeError` raised when
`get_safety_recommendation` is called with `risks = None` and the
prompt f-string evaluates `risks.get('total_risks', 0)` (CPython
renders the object and attribute in quotes; the quotes are omitted
here). -/
def noneGetMsg : String := "NoneType object has no attribute get"

/-- The `try`-block of `get_safety_recommendation`: rendering the
prompt already dereferences `risks.get(...)`, so an absent (`None`)
Risk Report raises `AttributeError` before the model is ever invoked;
otherwise invoke the model, interpret the reply, and shape the Safety
Recommendation with per-field defaults. -/
def safetyAttempt (text : String) (risks : Option (List (String × JValue)))
    (language : String)
    (model : String → Except String String) : Except String (List (String × JValue)) :=
  match risks with
  | none => .error noneGetMsg
  | some rd =>
    match model (safetyPrompt rd language) with
    | .error e => .error e
    | .ok reply =>
      .ok [("safety_level", pyDictGetD (_parse_json_response reply) "safety_level" (.str "WARNING")),
           ("recommendation", pyDictGetD (_parse_json_response reply) "recommendation" (.str "Please review the document carefully")),
           ("reasons", pyDictGetD (_parse_json_response reply) "reasons" (.arr [])),
           ("suggestions", pyDictGetD (_parse_json_response reply) "suggestions" (.arr [])),
           ("language", .str language)]

/-- `AIProcessor.get_safety_recommendation`: the `try` block with its
`except` handler, which converts any raised exception — including the
`AttributeError` from an absent Risk Report — into the degraded
`WARNING` record embedding the error text in `recommendation`. -/
def get_safety_recommendation (text : String) (risks : Option (List (String × JValue)))
    (language : String)
    (model : String → Except String String) : List (String × JValue) :=
  match safetyAttempt text risks language model with
  | .ok r => r
  | .error e =>
    [("safety_level", .str "WARNING"),
     ("recommendation", .str ("Unable to analyze safety: " ++ e)),
     ("reasons", .arr [.str "Analysis error occurred"]),
     ("suggestions", .arr [.str "Please review the document manually"]),
     ("language", .str language)]

/-- `AIProcessor.answer_question`: build the Q&A prompt, invoke the
model and strip the reply; any raised exception is converted into the
error text returned as the answer body. -/
def answer_question (question document_text language : String)
    (model : String → Except String String) : String :=
  match model (answerPrompt question document_text language) with
  | .ok reply => pyStrip reply
  | .error e => "Error answering question: " ++ e

/-- A risk item whose `severity` field is exactly one of the three
labels the `detect_risks_advanced` prompt requests (in particular the
item is a dict, so `r.get('severity')` does not raise). -/
def properSeverity (x : JValue) : Bool :=
  match pyDictGet x "severity" with
  | .ok (some (.str s)) => (s == "High") || (s == "Medium") || (s == "Low")
  | _ => false

/-- A dict field that is either absent or holds a JSON array. -/
def seqOrAbsent (d : List (String × JValue)) (key : String) : Bool :=
  match dictFind d key with
  | none => true
  | some (.arr _) => true
  | some _ => false

/-- Specification of `List.findIdx?` (at start index 0): the found
index is in range, every earlier element fails the predicate, and the
element at the index satisfies it. -/
lemma findIdx?_some_split {α : Type} (p : α → Bool) :
    ∀ (l : List α) (i : Nat), l.findIdx? p = some i →
      i < l.length ∧ (∀ x ∈ l.take i, p x = false) ∧ ∃ a, l[i]? = some a ∧ p a = true := by
  intro l
  induction l with
  | nil => intro i h; exact Option.noConfusion h
  | cons x xs ih =>
    intro i h
    rw [List.findIdx?_cons] at h
    by_cases hp : p x = true
    · rw [if_pos hp] at h
      cases h
      exact ⟨by simp, by simp, x, by simp, hp⟩
    · rw [if_neg hp, List.findIdx?_succ] at h
      cases hfx : xs.findIdx? p with
      | none => rw [hfx] at h; cases h
      | some j =>
        rw [hfx] at h
        simp only [Option.map_some'] at h
        obtain rfl : j + 1 = i := by injection h
        obtain ⟨hlt, hall, a, ha, hpa⟩ := ih j hfx
        refine ⟨by simpa using hlt, ?_, a, by simpa using ha, hpa⟩
        intro y hy
        rw [List.take_succ_cons] at hy
        rcases List.mem_cons.mp hy with rfl | hy2
        · exact Bool.eq_false_iff.mpr hp
        · exact hall y hy2

/-- Inversion of a successful `summarizeAttempt`: the model replied,
and the record is the per-field-default shaping of the interpreted
reply. -/
lemma summarizeAttempt_ok {text language : String}
    {model : String → Except String String} {r : List (String × JValue)}
    (h : summarizeAttempt text language model = .ok r) :
    ∃ reply, model (summarizePrompt text language) = .ok reply ∧
      r = [("summary", pyDictGetD (_parse_json_response reply) "summary" (.str "Summary not available")),
           ("key_points", pyDictGetD (_parse_json_response reply) "key_points" (.arr [])),
           ("important_dates", pyDictGetD (_parse_json_response reply) "important_dates" (.arr [])),
           ("parties", pyDictGetD (_parse_json_response reply) "parties" (.arr [])),
           ("language", .str language)] := by
  unfold summarizeAttempt at h
  cases hm : model (summarizePrompt text language) with
  | error e => rw [hm] at h; cases h
  | ok reply =>
    rw [hm] at h
    cases h
    exact ⟨reply, rfl, rfl⟩

/-- Inversion of a successful `safetyAttempt`: a Risk Report was
supplied, the model replied, and the record is the per-field-default
shaping of the interpreted reply. -/
lemma safetyAttempt_ok {text language : String}
    {risks : Option (List (String × JValue))}
    {model : String → Except String String} {r : List (String × JValue)}
    (h : safetyAttempt text risks language model = .ok r) :
    ∃ rd reply, risks = some rd ∧ model (safetyPrompt rd language) = .ok reply ∧
      r = [("safety_level", pyDictGetD (_parse_json_response reply) "safety_level" (.str "WARNING")),
           ("recommendation", pyDictGetD (_parse_json_response reply) "recommendation" (.str "Please review the document carefully")),
           ("reasons", pyDictGetD (_parse_json_response reply) "reasons" (.arr [])),
           ("suggestions", pyDictGetD (_parse_json_response reply) "suggestions" (.arr [])),
           ("language", .str language)] := by
  unfold safetyAttempt at h
  split at h
  · exact absurd h (by simp)
  next rd =>
    split at h
    · exact absurd h (by simp)
    next reply hm =>
      cases h
      exact ⟨rd, reply, rfl, hm, rfl⟩

/-- Inversion of a successful `detectAttempt`: the model replied,
every processing step succeeded, and the record carries the
recomputed tallies together with the raw `risks` value of the
interpreted reply. -/
lemma detectAttempt_ok {text language : String}
    {model : String → Except String String} {r : List (String × JValue)}
    (h : detectAttempt text language model = .ok r) :
    ∃ reply n items highs meds lows,
      model (riskPrompt text language) = .ok reply ∧
      pyLen (pyDictGetD (_parse_json_response reply) "risks" (.arr [])) = .ok n ∧
      pyIter (pyDictGetD (_parse_json_response reply) "risks" (.arr [])) = .ok items ∧
      severityFilter "High" items = .ok highs ∧
      severityFilter "Medium" items = .ok meds ∧
      severityFilter "Low" items = .ok lows ∧
      r = [("total_risks", .num (Int.ofNat n)),
           ("high_risk_count", .num (Int.ofNat highs.length)),
           ("medium_risk_count", .num (Int.ofNat meds.length)),
           ("low_risk_count", .num (Int.ofNat lows.length)),
           ("risks", pyDictGetD (_parse_json_response reply) "risks" (.arr [])),
           ("language", .str language)] := by
  unfold detectAttempt at h
  split at h
  · exact absurd h (by simp)
  next reply hm =>
    split at h
    · exact absurd h (by simp)
    next n hn =>
      split at h
      · exact absurd h (by simp)
      next items hit =>
        split at h
        · exact absurd h (by simp)
        next highs hh =>
          split at h
          · exact absurd h (by simp)
          next meds hmd =>
            split at h
            · exact absurd h (by simp)
            next lows hl =>
              cases h
              exact ⟨reply, n, items, highs, meds, lows, hm, hn, hit, hh, hmd, hl, rfl⟩

/-- The three severity list comprehensions partition a risk list in
which every item carries one of the three exact labels. -/
lemma severityFilter_partition :
    ∀ (items : List JValue), (∀ x ∈ items, properSeverity x = true) →
      ∀ hs ms ls, severityFilter "High" items = .ok hs →
        severityFilter "Medium" items = .ok ms →
        severityFilter "Low" items = .ok ls →
        hs.length + ms.length + ls.length = items.length := by
  intro items
  induction items with
  | nil =>
    intro _ hs ms ls hH hM hL
    cases hH; cases hM; cases hL
    rfl
  | cons x xs ih =>
    intro hall hs ms ls hH hM hL
    have hx : properSeverity x = true := hall x (by simp)
    have hxs : ∀ y ∈ xs, properSeverity y = true := fun y hy => hall y (by simp [hy])
    obtain ⟨s, hsev, hcase⟩ :
        ∃ s, pyDictGet x "severity" = .ok (some (.str s)) ∧
          (s = "High" ∨ s = "Medium" ∨ s = "Low") := by
      unfold properSeverity at hx
      split at hx
      next s heq =>
        refine ⟨s, heq, ?_⟩
        simp only [Bool.or_eq_true, beq_iff_eq] at hx
        tauto
      next => exact absurd hx (by simp)
    cases hHx : severityFilter "High" xs with
    | error e => simp [severityFilter, hsev, hHx] at hH
    | ok hrest =>
      cases hMx : severityFilter "Medium" xs with
      | error e => simp [severityFilter, hsev, hMx] at hM
      | ok mrest =>
        cases hLx : severityFilter "Low" xs with
        | error e => simp [severityFilter, hsev, hLx] at hL
        | ok lrest =>
          simp only [severityFilter, hsev, hHx, hMx, hLx, Except.ok.injEq] at hH hM hL
          subst hH hM hL
          have hrec := ih hxs hrest mrest lrest hHx hMx hLx
          rcases hcase with rfl | rfl | rfl
          · have e1 : eqStrVal (some (JValue.str "High")) "High" = true := rfl
            have e2 : eqStrVal (some (JValue.str "High")) "Medium" = false := rfl
            have e3 : eqStrVal (some (JValue.str "High")) "Low" = false := rfl
            simp [e1, e2, e3]
            omega
          · have e1 : eqStrVal (some (JValue.str "Medium")) "High" = false := rfl
            have e2 : eqStrVal (some (JValue.str "Medium")) "Medium" = true := rfl
            have e3 : eqStrVal (some (JValue.str "Medium")) "Low" = false := rfl
            simp [e1, e2, e3]
            omega
          · have e1 : eqStrVal (some (JValue.str "Low")) "High" = false := rfl
            have e2 : eqStrVal (some (JValue.str "Low")) "Medium" = false := rfl
            have e3 : eqStrVal (some (JValue.str "Low")) "Low" = true := rfl
            simp [e1, e2, e3]
            omega

/-- C9: `validate_language` returns true exactly for the keys of the
fixed shipped language set (`validate_language "English" = true`,
`validate_language "Klingon" = false`), and `get_supported_languages`
is the same non-empty name-to-code mapping on every call (it is a pure
constant, so stability across calls and absence of side effects hold
by construction). -/
theorem c9_language_registry :
    validate_language "English" = true ∧
    validate_language "Klingon" = false ∧
    get_supported_languages ≠ [] ∧
    (∀ l, validate_language l = true ↔ l ∈ SUPPORTED_LANGUAGES.map Prod.fst) ∧
    get_supported_languages = SUPPORTED_LANGUAGES := by
  refine ⟨rfl, rfl, by simp [get_supported_languages, SUPPORTED_LANGUAGES], ?_, rfl⟩
  intro l
  simp [validate_language, List.any_eq_true, List.mem_map, beq_iff_eq]

/-- C2 counterexample: calling the safety-recommendation operation
with an absent (`None`) Risk Report does not signal a precondition
error distinct from model failures — it silently returns the default
`WARNING` record (the `AttributeError` raised while rendering the
prompt is swallowed by the generic `except` handler), even when the
model would have replied `SAFE`. -/
theorem c2_absent_report_counterexample :
    get_safety_recommendation "doc" none "English"
      (fun _ => .ok "\x7b\"safety_level\": \"SAFE\", \"recommendation\": \"ok to sign\"\x7d")
      = [("safety_level", .str "WARNING"),
         ("recommendation", .str ("Unable to analyze safety: " ++ noneGetMsg)),
         ("reasons", .arr [.str "Analysis error occurred"]),
         ("suggestions", .arr [.str "Please review the document manually"]),
         ("language", .str "English")] := rfl

/-- C2 amended: for every document text, language and model behaviour,
calling the safety-recommendation operation with an absent Risk Report
returns the degraded `WARNING` record carrying the attribute-error
text — the model is never consulted and no distinct precondition error
is signalled. -/
theorem c2_absent_report_amended (text language : String)
    (model : String → Except String String) :
    get_safety_recommendation text none language model
      = [("safety_level", .str "WARNING"),
         ("recommendation", .str ("Unable to analyze safety: " ++ noneGetMsg)),
         ("reasons", .arr [.str "Analysis error occurred"]),
         ("suggestions", .arr [.str "Please review the document manually"]),
         ("language", .str language)] := rfl

/-- Unfolding `summarize_document` on the failure path. -/
lemma summarize_eq_error {text language er : String}
    {model : String → Except String String}
    (h : summarizeAttempt text language model = .error er) :
    summarize_document text language model
      = [("summary", .str ("Error generating summary: " ++ er)),
         ("key_points", .arr []),
         ("important_dates", .arr []),
         ("parties", .arr []),
         ("language", .str language)] := by
  unfold summarize_document
  rw [h]

/-- Unfolding `summarize_document` on the success path. -/
lemma summarize_eq_ok {text language : String}
    {model : String → Except String String} {r : List (String × JValue)}
    (h : summarizeAttempt text language model = .ok r) :
    summarize_document text language model = r := by
  unfold summarize_document
  rw [h]

/-- Unfolding `detect_risks_advanced` on the failure path. -/
lemma detect_eq_error {text language er : String}
    {model : String → Except String String}
    (h : detectAttempt text language model = .error er) :
    detect_risks_advanced text language model
      = [("total_risks", .num 0),
         ("high_risk_count", .num 0),
         ("medium_risk_count", .num 0),
         ("low_risk_count", .num 0),
         ("risks", .arr []),
         ("language", .str language),
         ("error", .str er)] := by
  unfold detect_risks_advanced
  rw [h]

/-- Unfolding `detect_risks_advanced` on the success path. -/
lemma detect_eq_ok {text language : String}
    {model : String → Except String String} {r : List (String × JValue)}
    (h : detectAttempt text language model = .ok r) :
    detect_risks_advanced text language model = r := by
  unfold detect_risks_advanced
  rw [h]

/-- Unfolding `get_safety_recommendation` on the failure path. -/
lemma safety_eq_error {text language er : String}
    {risks : Option (List (String × JValue))}
    {model : String → Except String String}
    (h : safetyAttempt text risks language model = .error er) :
    get_safety_recommendation text risks language model
      = [("safety_level", .str "WARNING"),
         ("recommendation", .str ("Unable to analyze safety: " ++ er)),
         ("reasons", .arr [.str "Analysis error occurred"]),
         ("suggestions", .arr [.str "Please review the document manually"]),
         ("language", .str language)] := by
  unfold get_safety_recommendation
  rw [h]

/-- Unfolding `get_safety_recommendation` on the success path. -/
lemma safety_eq_ok {text language : String}
    {risks : Option (List (String × JValue))}
    {model : String → Except String String} {r : List (String × JValue)}
    (h : safetyAttempt text risks language model = .ok r) :
    get_safety_recommendation text risks language model = r := by
  unfold get_safety_recommendation
  rw [h]

/-- C3: for every input and every behaviour of the model invocation,
each of the four analysis operations returns a fully-shaped result
record (the exact expected key set, with `detect_risks_advanced`
adding only the dedicated `error` key on its failure path) and never
propagates an exception; when the model invocation fails with message
`e`, the failure is encoded as data — the error text appears in the
stage's dedicated field alongside stage defaults. -/
theorem c3_total_shaped_results (text question language e : String)
    (model : String → Except String String)
    (rdOpt : Option (List (String × JValue))) :
    keysOf (summarize_document text language model)
      = ["summary", "key_points", "important_dates", "parties", "language"] ∧
    (keysOf (detect_risks_advanced text language model)
        = ["total_risks", "high_risk_count", "medium_risk_count", "low_risk_count", "risks", "language"] ∨
      keysOf (detect_risks_advanced text language model)
        = ["total_risks", "high_risk_count", "medium_risk_count", "low_risk_count", "risks", "language", "error"]) ∧
    keysOf (get_safety_recommendation text rdOpt language model)
      = ["safety_level", "recommendation", "reasons", "suggestions", "language"] ∧
    dictFind (summarize_document text language (fun _ => .error e)) "summary"
      = some (.str ("Error generating summary: " ++ e)) ∧
    dictFind (detect_risks_advanced text language (fun _ => .error e)) "error"
      = some (.str e) ∧
    dictFind (get_safety_recommendation text (some []) language (fun _ => .error e)) "recommendation"
      = some (.str ("Unable to analyze safety: " ++ e)) ∧
    answer_question question text language (fun _ => .error e)
      = "Error answering question: " ++ e := by
  refine ⟨?_, ?_, ?_, rfl, rfl, rfl, rfl⟩
  · cases hs : summarizeAttempt text language model with
    | error er => rw [summarize_eq_error hs]; rfl
    | ok r =>
      obtain ⟨reply, hm, rfl⟩ := summarizeAttempt_ok hs
      rw [summarize_eq_ok hs]; rfl
  · cases hd : detectAttempt text language model with
    | error er =>
      right
      rw [detect_eq_error hd]; rfl
    | ok r =>
      left
      obtain ⟨reply, n, items, highs, meds, lows, hm, hn, hit, hh, hmd, hl, rfl⟩ :=
        detectAttempt_ok hd
      rw [detect_eq_ok hd]; rfl
  · cases hsa : safetyAttempt text rdOpt language model with
    | error er => rw [safety_eq_error hsa]; rfl
    | ok r =>
      obtain ⟨rd, reply, hrd, hm, rfl⟩ := safetyAttempt_ok hsa
      rw [safety_eq_ok hsa]; rfl

/-- C10: the record returned by `detect_risks_advanced` carries the
`error` key exactly when the operation's model invocation or its
processing raised an exception (modelled by `detectAttempt` returning
`Except.error`); success records — including those for empty or
undecodable replies, which are not exceptions — never carry it.
`summarize_document` instead embeds the error text in its `summary`
field, so its failure records have exactly the same key set as its
success records. -/
theorem c10_error_key_iff (text language e : String)
    (model : String → Except String String) :
    ((∃ err, detectAttempt text language model = .error err) ↔
      (∃ v, dictFind (detect_risks_advanced text language model) "error" = some v)) ∧
    keysOf (summarize_document text language model)
      = ["summary", "key_points", "important_dates", "parties", "language"] ∧
    dictFind (summarize_document text language (fun _ => .error e)) "summary"
      = some (.str ("Error generating summary: " ++ e)) := by
  refine ⟨⟨?_, ?_⟩, ?_, rfl⟩
  · rintro ⟨err, herr⟩
    refine ⟨.str err, ?_⟩
    rw [detect_eq_error herr]; rfl
  · rintro ⟨v, hv⟩
    cases hd : detectAttempt text language model with
    | error er => exact ⟨er, rfl⟩
    | ok r =>
      obtain ⟨reply, n, items, highs, meds, lows, hm, hn, hit, hh, hmd, hl, rfl⟩ :=
        detectAttempt_ok hd
      rw [detect_eq_ok hd] at hv
      exact Option.noConfusion hv
  · cases hs : summarizeAttempt text language model with
    | error er => rw [summarize_eq_error hs]; rfl
    | ok r =>
      obtain ⟨reply, hm, rfl⟩ := summarizeAttempt_ok hs
      rw [summarize_eq_ok hs]; rfl

/-- C4: the response interpreter decodes the first structured payload
out of surrounding prose — on the reply
`blah blah {"summary": "ok"} trailing junk` it returns exactly
`{summary: "ok"}` with all other fields absent — and for every reply
with no candidate bracket span, or whose extracted candidate fails to
decode, it returns the entirely empty record instead of failing. -/
theorem c4_response_interpreter :
    _parse_json_response "blah blah \x7b\"summary\": \"ok\"\x7d trailing junk"
      = [("summary", JValue.str "ok")] ∧
    (∀ reply, extractCandidate reply = none → _parse_json_response reply = []) ∧
    (∀ reply c, extractCandidate reply = some c → jsonParse c = none →
      _parse_json_response reply = []) := by
  refine ⟨rfl, ?_, ?_⟩
  · intro reply h
    unfold _parse_json_response
    rw [h]
  · intro reply c h1 h2
    unfold _parse_json_response
    rw [h1]
    show (match jsonParse c with
          | some (.obj fields) => fields
          | _ => []) = []
    rw [h2]

/-- C4 witness: the no-bracket-pair reply and an undecodable candidate
both yield the empty record. -/
theorem c4_response_interpreter_witness :
    _parse_json_response "no json here" = [] ∧
    _parse_json_response "\x7bnot json\x7d" = [] :=
  ⟨c4_response_interpreter.2.1 "no json here" rfl,
   c4_response_interpreter.2.2 "\x7bnot json\x7d" "\x7bnot json\x7d" rfl rfl⟩

/-- C6 counterexample: on a reply whose `safety_level` field is absent
but whose `recommendation` field is present, the operation does
default the level to `WARNING`, yet the recommendation text is the
model's own text (`Sign immediately`) — neither the generic
review-carefully message nor an error message — refuting the claim
that the recommendation is always generic-or-error in that case. -/
theorem c6_warning_default_counterexample :
    dictFind (_parse_json_response "\x7b\"recommendation\": \"Sign immediately\"\x7d")
        "safety_level" = none ∧
    get_safety_recommendation "doc" (some []) "English"
        (fun _ => .ok "\x7b\"recommendation\": \"Sign immediately\"\x7d")
      = [("safety_level", .str "WARNING"),
         ("recommendation", .str "Sign immediately"),
         ("reasons", .arr []),
         ("suggestions", .arr []),
         ("language", .str "English")] ∧
    ("Sign immediately" : String) ≠ "Please review the document carefully" :=
  ⟨rfl, rfl, by decide⟩

/-- C6 amended: whenever the safety level cannot be obtained from the
model reply the returned `safety_level` is `WARNING` — never `SAFE` —
and the recommendation defaults to the generic review-carefully
message when the reply's `recommendation` field is itself absent, or
to an error message when the model invocation failed; a present
`recommendation` field is passed through verbatim. -/
theorem c6_warning_default_amended (text language reply e : String)
    (rd : List (String × JValue))
    (h1 : dictFind (_parse_json_response reply) "safety_level" = none)
    (h2 : dictFind (_parse_json_response reply) "recommendation" = none) :
    dictFind (get_safety_recommendation text (some rd) language (fun _ => .ok reply))
        "safety_level" = some (.str "WARNING") ∧
    dictFind (get_safety_recommendation text (some rd) language (fun _ => .ok reply))
        "recommendation" = some (.str "Please review the document carefully") ∧
    dictFind (get_safety_recommendation text (some rd) language (fun _ => .error e))
        "safety_level" = some (.str "WARNING") ∧
    dictFind (get_safety_recommendation text (some rd) language (fun _ => .error e))
        "recommendation" = some (.str ("Unable to analyze safety: " ++ e)) := by
  refine ⟨?_, ?_, rfl, rfl⟩
  · show some (pyDictGetD (_parse_json_response reply) "safety_level" (.str "WARNING"))
      = some (.str "WARNING")
    unfold pyDictGetD
    rw [h1]
    rfl
  · show some (pyDictGetD (_parse_json_response reply) "recommendation"
        (.str "Please review the document carefully"))
      = some (.str "Please review the document carefully")
    unfold pyDictGetD
    rw [h2]
    rfl

/-- C6 witness: an undecodable reply (no safety level obtainable) and
a failing model call both yield `WARNING` with the corresponding
generic or error recommendation text. -/
theorem c6_warning_default_amended_witness :
    dictFind (get_safety_recommendation "doc" (some []) "English" (fun _ => .ok "no braces"))
        "safety_level" = some (.str "WARNING") ∧
    dictFind (get_safety_recommendation "doc" (some []) "English" (fun _ => .ok "no braces"))
        "recommendation" = some (.str "Please review the document carefully") ∧
    dictFind (get_safety_recommendation "doc" (some []) "English" (fun _ => .error "boom"))
        "safety_level" = some (.str "WARNING") ∧
    dictFind (get_safety_recommendation "doc" (some []) "English" (fun _ => .error "boom"))
        "recommendation" = some (.str ("Unable to analyze safety: " ++ "boom")) :=
  c6_warning_default_amended "doc" "English" "no braces" "boom" [] rfl rfl

/-- A dict field that is either absent or an array yields an array
after `.get(key, [])` defaulting. -/
lemma pyDictGetD_arr_of_seqOrAbsent {d : List (String × JValue)} {key : String}
    (h : seqOrAbsent d key = true) :
    ∃ xs, pyDictGetD d key (.arr []) = .arr xs := by
  unfold seqOrAbsent at h
  split at h
  next heq => exact ⟨[], by unfold pyDictGetD; rw [heq]; rfl⟩
  next xs heq => exact ⟨xs, by unfold pyDictGetD; rw [heq]; rfl⟩
  next => exact absurd h (by simp)

/-- C8 counterexample: the summarizer passes a decoded reply value
through unchecked, so a reply carrying a non-sequence `key_points`
(here the number `5`) produces a Summary Result whose `key_points` is
not a sequence, refuting "always sequences"; the `language` field does
equal the requested language. -/
theorem c8_key_points_counterexample :
    dictFind (summarize_document "doc" "English"
        (fun _ => .ok "\x7b\"key_points\": 5\x7d")) "key_points" = some (.num 5) ∧
    isSeq (.num 5) = false ∧
    dictFind (summarize_document "doc" "English"
        (fun _ => .ok "\x7b\"key_points\": 5\x7d")) "language"
      = some (.str "English") :=
  ⟨rfl, rfl, rfl⟩

/-- C8 amended: `summarize_document` always returns `language` equal
to the requested language (success and degraded path alike), always
carries the `key_points`/`important_dates`/`parties` keys, and those
fields are sequences (possibly empty) whenever the decoded reply
supplies sequences for them or omits them — in particular always on
the degraded path; a non-sequence reply value is passed through
verbatim. -/
theorem c8_fields_amended (text language : String)
    (model : String → Except String String)
    (h : ∀ reply, model (summarizePrompt text language) = .ok reply →
        seqOrAbsent (_parse_json_response reply) "key_points" = true ∧
        seqOrAbsent (_parse_json_response reply) "important_dates" = true ∧
        seqOrAbsent (_parse_json_response reply) "parties" = true) :
    dictFind (summarize_document text language model) "language" = some (.str language) ∧
    (∃ xs, dictFind (summarize_document text language model) "key_points" = some (.arr xs)) ∧
    (∃ ys, dictFind (summarize_document text language model) "important_dates" = some (.arr ys)) ∧
    (∃ zs, dictFind (summarize_document text language model) "parties" = some (.arr zs)) := by
  cases hs : summarizeAttempt text language model with
  | error er =>
    rw [summarize_eq_error hs]
    exact ⟨rfl, ⟨[], rfl⟩, ⟨[], rfl⟩, ⟨[], rfl⟩⟩
  | ok r =>
    obtain ⟨reply, hm, rfl⟩ := summarizeAttempt_ok hs
    obtain ⟨h1, h2, h3⟩ := h reply hm
    rw [summarize_eq_ok hs]
    obtain ⟨xs, hx⟩ := pyDictGetD_arr_of_seqOrAbsent h1
    obtain ⟨ys, hy⟩ := pyDictGetD_arr_of_seqOrAbsent h2
    obtain ⟨zs, hz⟩ := pyDictGetD_arr_of_seqOrAbsent h3
    refine ⟨rfl, ⟨xs, ?_⟩, ⟨ys, ?_⟩, ⟨zs, ?_⟩⟩
    · show some (pyDictGetD (_parse_json_response reply) "key_points" (.arr []))
        = some (.arr xs)
      rw [hx]
    · show some (pyDictGetD (_parse_json_response reply) "important_dates" (.arr []))
        = some (.arr ys)
      rw [hy]
    · show some (pyDictGetD (_parse_json_response reply) "parties" (.arr []))
        = some (.arr zs)
      rw [hz]

/-- C8 witness: a reply supplying a sequence for `key_points` and
omitting the other two list fields yields sequences for all three. -/
theorem c8_fields_amended_witness :
    dictFind (summarize_document "doc" "English"
        (fun _ => .ok "\x7b\"key_points\": [\"a\"]\x7d")) "language"
      = some (.str "English") ∧
    (∃ xs, dictFind (summarize_document "doc" "English"
        (fun _ => .ok "\x7b\"key_points\": [\"a\"]\x7d")) "key_points" = some (.arr xs)) ∧
    (∃ ys, dictFind (summarize_document "doc" "English"
        (fun _ => .ok "\x7b\"key_points\": [\"a\"]\x7d")) "important_dates" = some (.arr ys)) ∧
    (∃ zs, dictFind (summarize_document "doc" "English"
        (fun _ => .ok "\x7b\"key_points\": [\"a\"]\x7d")) "parties" = some (.arr zs)) :=
  c8_fields_amended "doc" "English" _ (fun reply hr => by
    cases hr
    exact ⟨rfl, rfl, rfl⟩)

/-- C1 counterexample: a model reply whose single risk item carries
the arbitrary severity string `Critical` yields a Risk Report with
`total_risks = 1` but all three severity counts `0`, so the severity
counts do not sum to `total_risks` on arbitrary severity strings. -/
theorem c1_severity_sum_counterexample :
    dictFind (detect_risks_advanced "doc" "English"
        (fun _ => .ok "\x7b\"risks\": [\x7b\"severity\": \"Critical\"\x7d]\x7d"))
        "total_risks" = some (.num 1) ∧
    dictFind (detect_risks_advanced "doc" "English"
        (fun _ => .ok "\x7b\"risks\": [\x7b\"severity\": \"Critical\"\x7d]\x7d"))
        "high_risk_count" = some (.num 0) ∧
    dictFind (detect_risks_advanced "doc" "English"
        (fun _ => .ok "\x7b\"risks\": [\x7b\"severity\": \"Critical\"\x7d]\x7d"))
        "medium_risk_count" = some (.num 0) ∧
    dictFind (detect_risks_advanced "doc" "English"
        (fun _ => .ok "\x7b\"risks\": [\x7b\"severity\": \"Critical\"\x7d]\x7d"))
        "low_risk_count" = some (.num 0) ∧
    (0 + 0 + 0 : Int) ≠ 1 :=
  ⟨rfl, rfl, rfl, rfl, by decide⟩

/-- C1 amended: the counts are always recomputed from the risks
sequence, never taken from the model's claims: whenever the returned
Risk Report's `risks` field is a sequence `items`, `total_risks`
equals `length items`; and when additionally every item's severity is
exactly one of `High`/`Medium`/`Low`, the three severity counts sum to
`total_risks` (an item with any other severity string is counted in
`total_risks` but in no severity bucket). -/
theorem c1_severity_sum_amended (text language : String)
    (model : String → Except String String) (items : List JValue)
    (h1 : dictFind (detect_risks_advanced text language model) "risks" = some (.arr items))
    (h2 : ∀ x ∈ items, properSeverity x = true) :
    dictFind (detect_risks_advanced text language model) "total_risks"
      = some (.num items.length) ∧
    ∃ hn mn ln : Nat,
      dictFind (detect_risks_advanced text language model) "high_risk_count"
        = some (.num hn) ∧
      dictFind (detect_risks_advanced text language model) "medium_risk_count"
        = some (.num mn) ∧
      dictFind (detect_risks_advanced text language model) "low_risk_count"
        = some (.num ln) ∧
      hn + mn + ln = items.length := by
  cases hd : detectAttempt text language model with
  | error er =>
    rw [detect_eq_error hd] at h1 ⊢
    have h1' : (some (JValue.arr []) : Option JValue) = some (.arr items) := h1
    have h1'' : JValue.arr [] = .arr items := by injection h1'
    obtain rfl : items = [] := by
      injection h1'' with h3
      exact h3.symm
    exact ⟨rfl, 0, 0, 0, rfl, rfl, rfl, rfl⟩
  | ok r =>
    obtain ⟨reply, n, items0, highs, meds, lows, hm, hn, hit, hh, hmd, hl, rfl⟩ :=
      detectAttempt_ok hd
    rw [detect_eq_ok hd] at h1 ⊢
    have h1' : some (pyDictGetD (_parse_json_response reply) "risks" (.arr []))
        = some (.arr items) := h1
    have hrv : pyDictGetD (_parse_json_response reply) "risks" (.arr []) = .arr items := by
      injection h1'
    rw [hrv] at hn hit
    simp only [pyLen, Except.ok.injEq] at hn
    simp only [pyIter, Except.ok.injEq] at hit
    subst hn
    subst hit
    have hsum := severityFilter_partition items h2 highs meds lows hh hmd hl
    exact ⟨rfl, highs.length, meds.length, lows.length, rfl, rfl, rfl, hsum⟩

/-- C1 witness: a reply whose single risk item has severity `High`
yields `total_risks = 1` with counts `1`, `0`, `0` summing to `1`. -/
theorem c1_severity_sum_amended_witness :
    dictFind (detect_risks_advanced "doc" "English"
        (fun _ => .ok "\x7b\"risks\": [\x7b\"severity\": \"High\"\x7d]\x7d"))
        "total_risks" = some (.num 1) ∧
    ∃ hn mn ln : Nat,
      dictFind (detect_risks_advanced "doc" "English"
          (fun _ => .ok "\x7b\"risks\": [\x7b\"severity\": \"High\"\x7d]\x7d"))
          "high_risk_count" = some (.num hn) ∧
      dictFind (detect_risks_advanced "doc" "English"
          (fun _ => .ok "\x7b\"risks\": [\x7b\"severity\": \"High\"\x7d]\x7d"))
          "medium_risk_count" = some (.num mn) ∧
      dictFind (detect_risks_advanced "doc" "English"
          (fun _ => .ok "\x7b\"risks\": [\x7b\"severity\": \"High\"\x7d]\x7d"))
          "low_risk_count" = some (.num ln) ∧
      hn + mn + ln = 1 :=
  c1_severity_sum_amended "doc" "English" _
    [JValue.obj [("severity", JValue.str "High")]] rfl (by decide)

/-- C7: each stage's prompt embeds exactly the left-anchored character
prefix of the document text under that stage's fixed budget — 4000
characters for the summarization and risk prompts, a strictly smaller
3000 for the Q&A context — so text over the budget is cut to exactly
the budget length and text at or under the budget is embedded
unchanged. -/
theorem c7_truncation (text question docText language : String) :
    summarizePrompt text language
      = summarizePromptPre language ++ pySlice text 4000 ++ summarizePromptPost ∧
    riskPrompt text language
      = riskPromptPre language ++ pySlice text 4000 ++ riskPromptPost language ∧
    answerPrompt question docText language
      = answerPromptPre question language ++ pySlice docText 3000 ++ answerPromptPost ∧
    (pySlice text 4000).length = min 4000 text.length ∧
    (pySlice docText 3000).length = min 3000 docText.length ∧
    (∃ rest, text.data = (pySlice text 4000).data ++ rest) ∧
    (pySlice text 4000 = text ↔ text.length ≤ 4000) ∧
    (pySlice docText 3000 = docText ↔ docText.length ≤ 3000) ∧
    (3000 : Nat) < 4000 := by
  have hiff : ∀ (t : String) (n : Nat), pySlice t n = t ↔ t.length ≤ n := by
    intro t n
    constructor
    · intro h
      have hd : t.data.take n = t.data := congrArg String.data h
      exact (List.take_eq_self_iff t.data).mp hd
    · intro h
      exact String.ext ((List.take_eq_self_iff t.data).mpr h)
  refine ⟨rfl, rfl, rfl, ?_, ?_, ?_, hiff text 4000, hiff docText 3000, by norm_num⟩
  · exact List.length_take 4000 text.data
  · exact List.length_take 3000 docText.data
  · exact ⟨text.data.drop 4000, (List.take_append_drop 4000 text.data).symm⟩

/-- C5 counterexample: on a reply holding two bracket-delimited
regions the greedy candidate spans from the first opening brace to the
*last* closing brace — covering both regions — so the span fails to
decode and the empty record is returned, even though the first block
alone is well-formed and decodes on its own; the claim that a
well-formed first block is decoded when other bracketed regions follow
is refuted. -/
theorem c5_first_block_counterexample :
    _parse_json_response "\x7b\"summary\": \"ok\"\x7d and \x7b\"b\": 1\x7d" = [] ∧
    _parse_json_response "\x7b\"summary\": \"ok\"\x7d" = [("summary", JValue.str "ok")] ∧
    extractCandidate "\x7b\"summary\": \"ok\"\x7d and \x7b\"b\": 1\x7d"
      = some "\x7b\"summary\": \"ok\"\x7d and \x7b\"b\": 1\x7d" :=
  ⟨rfl, rfl, rfl⟩

/-- C5 amended: the interpreter has a single greedy decode candidate,
spanning from the first opening brace of the reply to its last closing
brace: whenever extraction succeeds, the reply splits as
`pre ++ candidate ++ post` with no opening brace before the candidate
and no closing brace after it, and the candidate starts with an
opening and ends with a closing brace.  Consequently a well-formed
first block followed by further bracketed regions is *not* decoded on
its own — the candidate swallows the later regions (and typically
fails to decode, yielding the empty record). -/
theorem c5_greedy_span_amended (reply c : String)
    (h : extractCandidate reply = some c) :
    ∃ pre post : List Char,
      reply.data = pre ++ c.data ++ post ∧
      lbrace ∉ pre ∧
      rbrace ∉ post ∧
      c.data.head? = some lbrace ∧
      c.data.getLast? = some rbrace := by
  unfold extractCandidate at h
  split at h
  next p rq hp hrq =>
    split at h
    next hlt =>
      injection h with h'
      have hc : c.data = (reply.data.drop p).take (reply.data.length - 1 - rq - p + 1) :=
        congrArg String.data h'.symm
      obtain ⟨hplen, hpre, a, hpa, hpeq⟩ :=
        findIdx?_some_split (fun ch => ch = lbrace) reply.data p hp
      obtain ⟨hrlen0, hrpre, b, hrb, hrbeq⟩ :=
        findIdx?_some_split (fun ch => ch = rbrace) reply.data.reverse rq hrq
      have ha : a = lbrace := of_decide_eq_true hpeq
      have hb : b = rbrace := of_decide_eq_true hrbeq
      subst ha hb
      have hrlen : rq < reply.data.length := by
        rw [List.length_reverse] at hrlen0
        exact hrlen0
      have hgetq : reply.data[reply.data.length - 1 - rq]? = some rbrace := by
        rw [List.getElem?_reverse hrlen] at hrb
        exact hrb
      refine ⟨reply.data.take p, reply.data.drop (reply.data.length - 1 - rq + 1),
        ?_, ?_, ?_, ?_, ?_⟩
      · rw [hc]
        have h1 : (reply.data.drop p).drop (reply.data.length - 1 - rq - p + 1)
            = reply.data.drop (reply.data.length - 1 - rq + 1) := by
          rw [List.drop_drop]
          congr 1
          omega
        calc reply.data
            = reply.data.take p ++ reply.data.drop p :=
              (List.take_append_drop p reply.data).symm
          _ = reply.data.take p
              ++ ((reply.data.drop p).take (reply.data.length - 1 - rq - p + 1)
                ++ (reply.data.drop p).drop (reply.data.length - 1 - rq - p + 1)) :=
              congrArg (fun t => reply.data.take p ++ t)
                (List.take_append_drop (reply.data.length - 1 - rq - p + 1)
                  (reply.data.drop p)).symm
          _ = reply.data.take p
              ++ ((reply.data.drop p).take (reply.data.length - 1 - rq - p + 1)
                ++ reply.data.drop (reply.data.length - 1 - rq + 1)) := by rw [h1]
          _ = reply.data.take p
              ++ (reply.data.drop p).take (reply.data.length - 1 - rq - p + 1)
              ++ reply.data.drop (reply.data.length - 1 - rq + 1) :=
              (List.append_assoc _ _ _).symm
      · intro hmem
        have hfalse := hpre lbrace hmem
        simp at hfalse
      · intro hmem
        obtain ⟨j, hj⟩ := List.mem_iff_getElem?.mp hmem
        rw [List.getElem?_drop] at hj
        obtain ⟨hjlt, _⟩ := List.getElem?_eq_some.mp hj
        have hi' : reply.data.length - 1 - (reply.data.length - 1 - rq + 1 + j) < rq
            ∧ reply.data.length - 1 - (reply.data.length - 1 - rq + 1 + j)
              < reply.data.length := by omega
        have hrev : reply.data.reverse[reply.data.length - 1
            - (reply.data.length - 1 - rq + 1 + j)]? = some rbrace := by
          rw [List.getElem?_reverse hi'.2]
          have harith : reply.data.length - 1 - (reply.data.length - 1
              - (reply.data.length - 1 - rq + 1 + j))
              = reply.data.length - 1 - rq + 1 + j := by omega
          rw [harith]
          exact hj
        have hmem2 : rbrace ∈ reply.data.reverse.take rq := by
          apply List.mem_iff_getElem?.mpr
          refine ⟨reply.data.length - 1 - (reply.data.length - 1 - rq + 1 + j), ?_⟩
          rw [List.getElem?_take, if_pos hi'.1]
          exact hrev
        have hfalse := hrpre rbrace hmem2
        simp at hfalse
      · rw [hc, List.head?_eq_getElem?, List.getElem?_take]
        rw [if_pos (by omega : 0 < reply.data.length - 1 - rq - p + 1)]
        rw [List.getElem?_drop, Nat.add_zero]
        exact hpa
      · rw [hc, List.getLast?_eq_getElem?]
        have hlen : ((reply.data.drop p).take (reply.data.length - 1 - rq - p + 1)).length
            = reply.data.length - 1 - rq - p + 1 := by
          rw [List.length_take, List.length_drop]
          omega
        rw [hlen, List.getElem?_take]
        rw [if_pos (by omega : reply.data.length - 1 - rq - p + 1 - 1
          < reply.data.length - 1 - rq - p + 1)]
        rw [List.getElem?_drop]
        have harith : p + (reply.data.length - 1 - rq - p + 1 - 1)
            = reply.data.length - 1 - rq := by omega
        rw [harith]
        exact hgetq
    next => exact Option.noConfusion h
  next => exact Option.noConfusion h

/-- C5 witness: on the reply `x{a}y` the candidate `{a}` is flanked by
a brace-free prefix and suffix and is brace-delimited. -/
theorem c5_greedy_span_amended_witness :
    ∃ pre post : List Char,
      ("x\x7ba\x7dy" : String).data = pre ++ ("\x7ba\x7d" : String).data ++ post ∧
      lbrace ∉ pre ∧
      rbrace ∉ post ∧
      ("\x7ba\x7d" : String).data.head? = some lbrace ∧
      ("\x7ba\x7d" : String).data.getLast? = some rbrace :=
  c5_greedy_span_amended "x\x7ba\x7dy" "\x7ba\x7d" rfl
